import Mathlib

/-!
Verification development for the Longhorn manager upgrade coordinator
(`upgrade/upgrade.go`) and the CSI managed-object sets (`csi/deployment.go`).

The Go code is shallowly embedded: every external call (Kubernetes API
get/create/update, per-version upgrader, fresh-install probe) is represented
by its outcome, supplied in an environment record, and each embedded function
returns the Go function's error result together with the trace of external
calls it issued, in issue order.  Error values model Go `error` with
`pkg/errors.Wrap` context messages and the `apierrors` classification
(IsNotFound / IsAlreadyExists) used by the source.
-/

namespace Longhorn

/-- Classification of a Go error value as tested by the k8s.io `apierrors`
helpers: `IsNotFound`, `IsAlreadyExists`, or anything else. -/
inductive ErrKind
  | notFound
  | alreadyExists
  | other
deriving DecidableEq

/-- A Go `error` value: its `apierrors` classification, its base message, and
the stack of context messages added by `errors.Wrap` (outermost first). -/
structure GoError where
  kind : ErrKind
  msg : String
  wraps : List String := []
deriving DecidableEq

/-- `errors.Wrap` on a non-nil error: pushes a context message. -/
def Wrap (e : GoError) (m : String) : GoError :=
  { e with wraps := m :: e.wraps }

/-- `errors.Wrap` on a possibly-nil Go error: `pkg/errors` returns nil when
the wrapped error is nil, so a deferred `err = errors.Wrap(err, msg)` leaves a
nil error nil. -/
def wrapOpt : Option GoError → String → Option GoError
  | none, _ => none
  | some e, m => some (Wrap e m)

/-- Modelled from the spec: the recognized legacy CRD API version tag
(`types.CRDAPIVersionV1beta1`; the `types` package is not part of the source
slice).  The spec names the legacy tag `v1beta1`. -/
def CRDAPIVersionV1beta1 : String := "longhorn.io/v1beta1"

/-- Modelled from the spec: the current CRD API version tag
(`types.CRDAPIVersionV1beta2`; the `types` package is not part of the source
slice).  The spec names the current tag `v1beta2`. -/
def CRDAPIVersionV1beta2 : String := "longhorn.io/v1beta2"

/-- Modelled from the spec: `types.CurrentCRDAPIVersion`, which the spec
identifies with the current tag `v1beta2`. -/
def CurrentCRDAPIVersion : String := CRDAPIVersionV1beta2

/-- One external call issued by `doAPIVersionUpgrade` after the initial read
of the version-marker setting.  `createMarker` / `updateMarker` carry the
value the call writes to the `CRDAPIVersion` setting; `canUpgradeProbe` is
`v1beta1.CanUpgrade`; `convertV1beta1ToV1beta2` is
`v1beta1.UpgradeCRFromV1beta1ToV1beta2`. -/
inductive APICall
  | canUpgradeProbe
  | createMarker (value : String)
  | convertV1beta1ToV1beta2
  | updateMarker (value : String)
deriving DecidableEq

/-- Outcomes of the external calls `doAPIVersionUpgrade` may issue.
`getSetting` is the `Settings(namespace).Get` on the `CRDAPIVersion` setting
(`Except.ok v` returns the stored value `v`); the remaining fields are the
results the corresponding calls would produce if issued. -/
structure APIUpgradeEnv where
  getSetting : Except GoError String
  canUpgrade : Except GoError Bool
  createResult : Option GoError
  convertResult : Option GoError
  updateResult : Option GoError

/-- Lines 149-158 of `upgrade.go`: `crdAPIVersion` starts as `""`; a
`NotFound` error from the Get leaves it `""`, any other Get error returns,
and a successful Get loads the stored value. -/
def readCRDAPIVersion (env : APIUpgradeEnv) : Except GoError String :=
  match env.getSetting with
  | .error e => if e.kind = ErrKind.notFound then .ok "" else .error e
  | .ok v => .ok v

/-- Lines 160-207 of `upgrade.go`: the guard, the no-op check, and the switch
on `crdAPIVersion`, given the value read.  Returns the error result (before
the deferred wrap) and the trace of external calls issued. -/
def resolveCRDAPIVersion (crdAPIVersion : String) (env : APIUpgradeEnv) :
    Option GoError × List APICall :=
  if crdAPIVersion ≠ "" ∧ crdAPIVersion ≠ CRDAPIVersionV1beta1 ∧
      crdAPIVersion ≠ CRDAPIVersionV1beta2 then
    (some { kind := ErrKind.other
            msg := "unrecognized CRD API version " ++ crdAPIVersion }, [])
  else if crdAPIVersion = CurrentCRDAPIVersion then
    (none, [])
  else if crdAPIVersion = "" then
    match env.canUpgrade with
    | .error e => (some e, [APICall.canUpgradeProbe])
    | .ok false => (none, [APICall.canUpgradeProbe])
    | .ok true =>
      match env.createResult with
      | none =>
        (none, [APICall.canUpgradeProbe, APICall.createMarker CurrentCRDAPIVersion])
      | some e =>
        if e.kind = ErrKind.alreadyExists then
          (none, [APICall.canUpgradeProbe, APICall.createMarker CurrentCRDAPIVersion])
        else
          (some (Wrap e "cannot create CRDAPIVersionSetting"),
           [APICall.canUpgradeProbe, APICall.createMarker CurrentCRDAPIVersion])
  else if crdAPIVersion = CRDAPIVersionV1beta1 then
    match env.convertResult with
    | some e => (some e, [APICall.convertV1beta1ToV1beta2])
    | none =>
      match env.updateResult with
      | none =>
        (none, [APICall.convertV1beta1ToV1beta2,
                APICall.updateMarker CRDAPIVersionV1beta2])
      | some e =>
        (some (Wrap e ("cannot finish CRD API upgrade by setting the CRDAPIVersionSetting to "
                ++ CurrentCRDAPIVersion)),
         [APICall.convertV1beta1ToV1beta2,
          APICall.updateMarker CRDAPIVersionV1beta2])
  else
    (some { kind := ErrKind.other
            msg := "don't support upgrade from " ++ crdAPIVersion ++ " to "
              ++ CurrentCRDAPIVersion }, [])

/-- `doAPIVersionUpgrade` (lines 144-208): reads the marker, resolves the
version, and applies the deferred `errors.Wrap(err, "upgrade API version
failed")` to the error result. -/
def doAPIVersionUpgrade (env : APIUpgradeEnv) : Option GoError × List APICall :=
  match readCRDAPIVersion env with
  | .error e => (wrapOpt (some e) "upgrade API version failed", [])
  | .ok v =>
    let r := resolveCRDAPIVersion v env
    (wrapOpt r.1 "upgrade API version failed", r.2)

/-- The values written to the version-marker setting by the calls in a trace
(create and update calls, in order). -/
def markerWriteValues (tr : List APICall) : List String :=
  tr.filterMap fun c =>
    match c with
    | APICall.createMarker v => some v
    | APICall.updateMarker v => some v
    | _ => none

/-- The marker value after applying the writes of a trace to a starting
value: the last written value, or the start if no write occurs. -/
def applyMarkerWrites (m : String) (tr : List APICall) : String :=
  (markerWriteValues tr).foldl (fun _ v => v) m

/-- Runs a list of labelled steps in order with Go early-return semantics:
the first step whose result is `some e` stops the run with error `e`; the
second component records which steps were invoked, in order. -/
def runSeq {α : Type} : List (α × Option GoError) → Option GoError × List α
  | [] => (none, [])
  | (a, r) :: rest =>
    match r with
    | some e => (some e, [a])
    | none => ((runSeq rest).1, a :: (runSeq rest).2)

/-- The first non-nil error in a list of results (Go early-return over pure
results), nil when all are nil. -/
def firstSome (l : List (Option GoError)) : Option GoError :=
  l.findSome? id

/-- The per-version custom-resource upgraders invoked by `doCRUpgrade`, in
declaration order (lines 220-249 of `upgrade.go`). -/
inductive CRStep
  | v070to080
  | v100to101
  | v102to110
  | v110to111
  | v110to120
  | v111to120
  | v120to121
  | v122to123
deriving DecidableEq

/-- Outcomes of the eight `UpgradeCRs` calls of `doCRUpgrade`, one field per
version-pair package. -/
structure CRUpgradeEnv where
  v070to080 : Option GoError
  v100to101 : Option GoError
  v102to110 : Option GoError
  v110to111 : Option GoError
  v110to120 : Option GoError
  v111to120 : Option GoError
  v120to121 : Option GoError
  v122to123 : Option GoError

/-- The `doCRUpgrade` call sequence in source declaration order. -/
def crStepList (env : CRUpgradeEnv) : List (CRStep × Option GoError) :=
  [(CRStep.v070to080, env.v070to080),
   (CRStep.v100to101, env.v100to101),
   (CRStep.v102to110, env.v102to110),
   (CRStep.v110to111, env.v110to111),
   (CRStep.v110to120, env.v110to120),
   (CRStep.v111to120, env.v111to120),
   (CRStep.v120to121, env.v120to121),
   (CRStep.v122to123, env.v122to123)]

/-- `doCRUpgrade` (lines 220-249): runs the eight per-version CR upgraders in
order with early return, and applies the deferred
`errors.Wrap(err, "upgrade CRD failed")`. -/
def doCRUpgrade (env : CRUpgradeEnv) : Option GoError × List CRStep :=
  let r := runSeq (crStepList env)
  (wrapOpt r.1 "upgrade CRD failed", r.2)

/-- Outcomes of the three pod-level upgrader calls of `doPodsUpgrade`
(lines 251-265). -/
structure PodUpgradeEnv where
  v100to101InstanceManagerPods : Option GoError
  v102to110Pods : Option GoError
  v110to111Pods : Option GoError

/-- `doPodsUpgrade` (lines 251-265): three pod upgraders in order with early
return, deferred wrap `"upgrade Pods failed"`. -/
def doPodsUpgrade (env : PodUpgradeEnv) : Option GoError :=
  wrapOpt (firstSome [env.v100to101InstanceManagerPods, env.v102to110Pods,
    env.v110to111Pods]) "upgrade Pods failed"

/-- `doServicesUpgrade` (lines 267-275): one service upgrader
(`v110to111.UpgradeServices`, whose result is the argument), deferred wrap
`"doServicesUpgrade failed"`. -/
def doServicesUpgrade (r : Option GoError) : Option GoError :=
  wrapOpt r "doServicesUpgrade failed"

/-- `doDeploymentAndDaemonSetUpgrade` (lines 277-285): one workload upgrader
(`v110to111.UpgradeDeploymentAndDaemonSet`, whose result is the argument),
deferred wrap `"doDeploymentAndDaemonSetUpgrade failed"`. -/
def doDeploymentAndDaemonSetUpgrade (r : Option GoError) : Option GoError :=
  wrapOpt r "doDeploymentAndDaemonSetUpgrade failed"

/-- The five phases the `OnStartedLeading` callback drives, in source order
(lines 103-128 of `upgrade.go`). -/
inductive Phase
  | apiVersion
  | customResources
  | pods
  | services
  | workloads
deriving DecidableEq

/-- Outcomes of every external call the upgrade chain may issue during one
leadership tenure. -/
structure UpgradeEnv where
  api : APIUpgradeEnv
  cr : CRUpgradeEnv
  pods : PodUpgradeEnv
  v110to111Services : Option GoError
  v110to111DeploymentAndDaemonSet : Option GoError

/-- The five phase results, labelled and in the order the callback runs
them. -/
def phaseResults (env : UpgradeEnv) : List (Phase × Option GoError) :=
  [(Phase.apiVersion, (doAPIVersionUpgrade env.api).1),
   (Phase.customResources, (doCRUpgrade env.cr).1),
   (Phase.pods, doPodsUpgrade env.pods),
   (Phase.services, doServicesUpgrade env.v110to111Services),
   (Phase.workloads, doDeploymentAndDaemonSetUpgrade env.v110to111DeploymentAndDaemonSet)]

/-- The body of the `OnStartedLeading` callback (lines 103-128): the five
phases run in order, each only if all previous returned nil; the first error
is assigned to the closure-captured `err` and stops the chain.  Returns that
error and the phases that started. -/
def upgradeChain (env : UpgradeEnv) : Option GoError × List Phase :=
  runSeq (phaseResults env)

/-- The `upgrade` function (lines 80-142): leader election runs the callback
once during the tenure and, after `RunOrDie` returns, the closure-captured
`err` assigned inside `OnStartedLeading` is returned to the caller. -/
def upgrade (env : UpgradeEnv) : Option GoError :=
  (upgradeChain env).1

/-- `upgradeLocalNode` (lines 210-218): delegates to
`v070to080.UpgradeLocalNode` (whose result is the argument) and applies the
deferred `errors.Wrap(err, "upgrade local node failed")`. -/
def upgradeLocalNode (r : Option GoError) : Option GoError :=
  wrapOpt r "upgrade local node failed"

/-- The two observable stages of the exported `Upgrade` after bootstrap: the
local-node upgrade, then the leader-election-gated chain run. -/
inductive TopStep
  | localNodeUpgrade
  | leaderElectionRun
deriving DecidableEq

/-- Outcomes of the bootstrap calls and delegated steps of the exported
`Upgrade` (lines 42-78): client-config construction, the two client sets, the
scheme builder, the local-node upgrade, and the chain environment. -/
structure TopEnv where
  buildConfig : Option GoError
  newKubeClient : Option GoError
  newLhClient : Option GoError
  addToScheme : Option GoError
  v070to080UpgradeLocalNode : Option GoError
  chain : UpgradeEnv

/-- The exported `Upgrade` (lines 42-78): bootstrap wraps and early-returns,
then `upgradeLocalNode` runs before `upgrade`; only if the local-node step
returns nil does the process enter leader election and run the chain.  The
trace records which of the two stages were reached. -/
def Upgrade (env : TopEnv) : Option GoError × List TopStep :=
  match env.buildConfig with
  | some e => (some (Wrap e "unable to get client config"), [])
  | none =>
    match env.newKubeClient with
    | some e => (some (Wrap e "unable to get k8s client"), [])
    | none =>
      match env.newLhClient with
      | some e => (some (Wrap e "unable to get clientset"), [])
      | none =>
        match env.addToScheme with
        | some e => (some (Wrap e "unable to create scheme"), [])
        | none =>
          match upgradeLocalNode env.v070to080UpgradeLocalNode with
          | some e => (some e, [TopStep.localNodeUpgrade])
          | none =>
            (upgrade env.chain, [TopStep.localNodeUpgrade, TopStep.leaderElectionRun])

end Longhorn

namespace Longhorn.csi

/-- One invocation of the generic reconciler from `csi/deployment.go`: the
`deploy` or `cleanup` helper applied to the set's service or deployment
object. -/
inductive CSIOp
  | deployService
  | deployDeployment
  | cleanupService
  | cleanupDeployment
deriving DecidableEq

/-- Outcomes of the four reconciler invocations a managed-object set
(attacher or provisioner) can issue: the generic `deploy` on its service and
on its deployment, and the generic `cleanup` on each. -/
structure DeployEnv where
  serviceDeploy : Option GoError
  deploymentDeploy : Option GoError
  serviceCleanup : Option GoError
  deploymentCleanup : Option GoError

/-- `AttacherDeployment.Deploy` (lines 74-82): reconciles the service first;
only if that returns nil is the deployment reconciled; the first error is
returned unchanged.  The trace records the reconciliations attempted, in
order. -/
def attacherDeploy (env : DeployEnv) : Option GoError × List CSIOp :=
  match env.serviceDeploy with
  | some e => (some e, [CSIOp.deployService])
  | none =>
    (env.deploymentDeploy, [CSIOp.deployService, CSIOp.deployDeployment])

/-- `AttacherDeployment.Cleanup` (lines 84-100): fans out the service and
deployment cleanups as concurrent tasks (`util.RunAsync`), joins both via the
deferred `wg.Wait` before returning, and logs each individual failure as a
warning.  The function has no error result.  The first component records the
reconciliations that completed before return (both, always); the second the
warnings logged. -/
def attacherCleanup (env : DeployEnv) : List CSIOp × List String :=
  ([CSIOp.cleanupService, CSIOp.cleanupDeployment],
   (match env.serviceCleanup with
    | some _ => ["Failed to cleanup service in attacher deployment"]
    | none => []) ++
   (match env.deploymentCleanup with
    | some _ => ["Failed to cleanup deployment in attacher deployment"]
    | none => []))

/-- `ProvisionerDeployment.Deploy` (lines 133-141): same shape as the
attacher's: service first, deployment only on success, first error
returned. -/
def provisionerDeploy (env : DeployEnv) : Option GoError × List CSIOp :=
  match env.serviceDeploy with
  | some e => (some e, [CSIOp.deployService])
  | none =>
    (env.deploymentDeploy, [CSIOp.deployService, CSIOp.deployDeployment])

/-- `ProvisionerDeployment.Cleanup` (lines 143-159): concurrent service and
deployment cleanups joined before return, failures only logged, no error
result. -/
def provisionerCleanup (env : DeployEnv) : List CSIOp × List String :=
  ([CSIOp.cleanupService, CSIOp.cleanupDeployment],
   (match env.serviceCleanup with
    | some _ => ["Failed to cleanup service in provisioner deployment"]
    | none => []) ++
   (match env.deploymentCleanup with
    | some _ => ["Failed to cleanup deployment in provisioner deployment"]
    | none => []))

end Longhorn.csi


namespace Longhorn

/-- A run with an all-nil result invoked every step: the trace is the full
step list. -/
theorem runSeq_trace_of_ok {α : Type} (l : List (α × Option GoError))
    (h : (runSeq l).1 = none) : (runSeq l).2 = l.map Prod.fst := by
  induction l with
  | nil => rfl
  | cons hd tl ih =>
    obtain ⟨a, r⟩ := hd
    cases r with
    | some e => simp [runSeq] at h
    | none =>
      have h' : (runSeq tl).1 = none := h
      show a :: (runSeq tl).2 = a :: tl.map Prod.fst
      rw [ih h']

/-- The steps a run invokes are always an order-preserving prefix of the
declared step list. -/
theorem runSeq_trace_prefix {α : Type} (l : List (α × Option GoError)) :
    (runSeq l).2 <+: l.map Prod.fst := by
  induction l with
  | nil => exact ⟨[], rfl⟩
  | cons hd tl ih =>
    obtain ⟨a, r⟩ := hd
    cases r with
    | some e => exact ⟨tl.map Prod.fst, rfl⟩
    | none =>
      obtain ⟨t, ht⟩ := ih
      refine ⟨t, ?_⟩
      show (a :: (runSeq tl).2) ++ t = a :: tl.map Prod.fst
      rw [List.cons_append, ht]

/-- A run's error result is the first non-nil step result in declared
order. -/
theorem runSeq_result_eq_firstSome {α : Type} (l : List (α × Option GoError)) :
    (runSeq l).1 = firstSome (l.map Prod.snd) := by
  induction l with
  | nil => rfl
  | cons hd tl ih =>
    obtain ⟨a, r⟩ := hd
    cases r with
    | some e => rfl
    | none => simpa [runSeq, firstSome] using ih

end Longhorn

namespace Longhorn

/-- C2: for every non-empty marker value that is neither the legacy tag nor
the current tag, `doAPIVersionUpgrade` returns the "unrecognized CRD API
version" error (under the deferred wrap) and issues no further external call
— in particular no write to the VersionMarker or any other cluster state. -/
theorem doAPIVersionUpgrade_unrecognized_guard (env : APIUpgradeEnv) (v : String)
    (hget : env.getSetting = Except.ok v) (h0 : v ≠ "")
    (h1 : v ≠ CRDAPIVersionV1beta1) (h2 : v ≠ CRDAPIVersionV1beta2) :
    doAPIVersionUpgrade env =
      (some (Wrap { kind := ErrKind.other, msg := "unrecognized CRD API version " ++ v }
        "upgrade API version failed"), []) := by
  have h2' : v ≠ CurrentCRDAPIVersion := by
    simpa [CurrentCRDAPIVersion] using h2
  simp [doAPIVersionUpgrade, readCRDAPIVersion, hget, resolveCRDAPIVersion,
    h0, h1, h2, h2', wrapOpt]

/-- Witness for C2 at the spec's scenario literal: marker `"v3"`. -/
theorem doAPIVersionUpgrade_unrecognized_guard_witness :
    doAPIVersionUpgrade
      { getSetting := Except.ok "v3", canUpgrade := Except.ok true,
        createResult := none, convertResult := none, updateResult := none } =
      (some (Wrap { kind := ErrKind.other, msg := "unrecognized CRD API version " ++ "v3" }
        "upgrade API version failed"), []) :=
  doAPIVersionUpgrade_unrecognized_guard _ "v3" rfl (by decide)
    (by decide) (by decide)

/-- C5: when the marker already holds the current tag, `doAPIVersionUpgrade`
returns nil and issues no external call at all (no write to the marker or any
other state). -/
theorem doAPIVersionUpgrade_current_noop (env : APIUpgradeEnv)
    (hget : env.getSetting = Except.ok CurrentCRDAPIVersion) :
    doAPIVersionUpgrade env = (none, []) := by
  simp [doAPIVersionUpgrade, readCRDAPIVersion, hget, resolveCRDAPIVersion,
    CurrentCRDAPIVersion, CRDAPIVersionV1beta1, CRDAPIVersionV1beta2, wrapOpt]

/-- Witness for C5: marker = current tag, arbitrary outcomes elsewhere. -/
theorem doAPIVersionUpgrade_current_noop_witness :
    doAPIVersionUpgrade
      { getSetting := Except.ok CurrentCRDAPIVersion,
        canUpgrade := Except.error { kind := ErrKind.other, msg := "probe failed" },
        createResult := none, convertResult := none, updateResult := none } =
      (none, []) :=
  doAPIVersionUpgrade_current_noop _ rfl

end Longhorn

namespace Longhorn

/-- C3: on a fresh install (marker read as empty, whether the setting is
absent — NotFound — or stored empty): if the `CanUpgrade` probe reports
upgradable with no error, the marker is created with the current tag and the
function returns nil; if the probe reports not upgradable with no error, no
marker write is issued and the function still returns nil; if the probe
itself errors, that error propagates (under the deferred wrap) and no marker
write is issued. -/
theorem doAPIVersionUpgrade_fresh_install (env : APIUpgradeEnv)
    (hget : readCRDAPIVersion env = Except.ok "") :
    (env.canUpgrade = Except.ok true → env.createResult = none →
        doAPIVersionUpgrade env =
          (none, [APICall.canUpgradeProbe, APICall.createMarker CurrentCRDAPIVersion]))
    ∧ (env.canUpgrade = Except.ok false →
        doAPIVersionUpgrade env = (none, [APICall.canUpgradeProbe]))
    ∧ (∀ e, env.canUpgrade = Except.error e →
        doAPIVersionUpgrade env =
          (some (Wrap e "upgrade API version failed"), [APICall.canUpgradeProbe])) := by
  refine ⟨?_, ?_, ?_⟩
  · intro hcan hcreate
    simp [doAPIVersionUpgrade, hget, resolveCRDAPIVersion, hcan, hcreate,
      CurrentCRDAPIVersion, CRDAPIVersionV1beta1, CRDAPIVersionV1beta2, wrapOpt]
  · intro hcan
    simp [doAPIVersionUpgrade, hget, resolveCRDAPIVersion, hcan,
      CurrentCRDAPIVersion, CRDAPIVersionV1beta1, CRDAPIVersionV1beta2, wrapOpt]
  · intro e hcan
    simp [doAPIVersionUpgrade, hget, resolveCRDAPIVersion, hcan,
      CurrentCRDAPIVersion, CRDAPIVersionV1beta1, CRDAPIVersionV1beta2, wrapOpt]

/-- A concrete fresh-install environment: setting absent (NotFound), probe
upgradable, create succeeds. -/
def freshInstallEnvW : APIUpgradeEnv :=
  { getSetting := Except.error { kind := ErrKind.notFound, msg := "not found" },
    canUpgrade := Except.ok true,
    createResult := none, convertResult := none, updateResult := none }

/-- Witness for C3 at `freshInstallEnvW`. -/
theorem doAPIVersionUpgrade_fresh_install_witness :
    doAPIVersionUpgrade freshInstallEnvW =
      (none, [APICall.canUpgradeProbe, APICall.createMarker CurrentCRDAPIVersion]) :=
  (doAPIVersionUpgrade_fresh_install freshInstallEnvW (by rfl)).1 rfl rfl

/-- C4: when the marker holds the legacy tag, the v1beta1-to-v1beta2 CR
conversion is invoked first and the marker update is issued only after the
conversion returns nil; a conversion failure leaves the marker unwritten and
propagates (under the deferred wrap); a marker-update failure is additionally
wrapped with the message naming the failed marker write. -/
theorem doAPIVersionUpgrade_legacy_upgrade (env : APIUpgradeEnv)
    (hget : env.getSetting = Except.ok CRDAPIVersionV1beta1) :
    (∀ e, env.convertResult = some e →
        doAPIVersionUpgrade env =
          (some (Wrap e "upgrade API version failed"), [APICall.convertV1beta1ToV1beta2]))
    ∧ (env.convertResult = none → env.updateResult = none →
        doAPIVersionUpgrade env =
          (none, [APICall.convertV1beta1ToV1beta2,
                  APICall.updateMarker CRDAPIVersionV1beta2]))
    ∧ (env.convertResult = none → ∀ e, env.updateResult = some e →
        doAPIVersionUpgrade env =
          (some (Wrap (Wrap e ("cannot finish CRD API upgrade by setting the CRDAPIVersionSetting to "
              ++ CurrentCRDAPIVersion)) "upgrade API version failed"),
           [APICall.convertV1beta1ToV1beta2,
            APICall.updateMarker CRDAPIVersionV1beta2])) := by
  refine ⟨?_, ?_, ?_⟩
  · intro e hconv
    simp [doAPIVersionUpgrade, readCRDAPIVersion, hget, resolveCRDAPIVersion, hconv,
      CurrentCRDAPIVersion, CRDAPIVersionV1beta1, CRDAPIVersionV1beta2, wrapOpt]
  · intro hconv hupd
    simp [doAPIVersionUpgrade, readCRDAPIVersion, hget, resolveCRDAPIVersion, hconv, hupd,
      CurrentCRDAPIVersion, CRDAPIVersionV1beta1, CRDAPIVersionV1beta2, wrapOpt]
  · intro hconv e hupd
    simp [doAPIVersionUpgrade, readCRDAPIVersion, hget, resolveCRDAPIVersion, hconv, hupd,
      CurrentCRDAPIVersion, CRDAPIVersionV1beta1, CRDAPIVersionV1beta2, wrapOpt]

/-- Witness for C4: marker legacy, conversion and update succeed. -/
theorem doAPIVersionUpgrade_legacy_upgrade_witness :
    doAPIVersionUpgrade
      { getSetting := Except.ok CRDAPIVersionV1beta1, canUpgrade := Except.ok true,
        createResult := none, convertResult := none, updateResult := none } =
      (none, [APICall.convertV1beta1ToV1beta2,
              APICall.updateMarker CRDAPIVersionV1beta2]) :=
  (doAPIVersionUpgrade_legacy_upgrade _ rfl).2.1 rfl rfl

/-- C7: on the fresh-install write, an "already exists" failure of the marker
create is treated as success (nil is returned); any other create failure is
returned wrapped with "cannot create CRDAPIVersionSetting" (under the
deferred wrap). -/
theorem doAPIVersionUpgrade_create_already_exists (env : APIUpgradeEnv)
    (hget : readCRDAPIVersion env = Except.ok "")
    (hcan : env.canUpgrade = Except.ok true) :
    (∀ e, env.createResult = some e → e.kind = ErrKind.alreadyExists →
        (doAPIVersionUpgrade env).1 = none)
    ∧ (∀ e, env.createResult = some e → e.kind ≠ ErrKind.alreadyExists →
        (doAPIVersionUpgrade env).1 =
          some (Wrap (Wrap e "cannot create CRDAPIVersionSetting")
            "upgrade API version failed")) := by
  refine ⟨?_, ?_⟩
  · intro e hcr hkind
    simp [doAPIVersionUpgrade, hget, resolveCRDAPIVersion, hcan, hcr, hkind,
      CurrentCRDAPIVersion, CRDAPIVersionV1beta1, CRDAPIVersionV1beta2, wrapOpt]
  · intro e hcr hkind
    simp [doAPIVersionUpgrade, hget, resolveCRDAPIVersion, hcan, hcr, hkind,
      CurrentCRDAPIVersion, CRDAPIVersionV1beta1, CRDAPIVersionV1beta2, wrapOpt]

/-- A concrete environment where the fresh-install marker create fails with
"already exists". -/
def createExistsEnvW : APIUpgradeEnv :=
  { getSetting := Except.ok "", canUpgrade := Except.ok true,
    createResult := some { kind := ErrKind.alreadyExists, msg := "already exists" },
    convertResult := none, updateResult := none }

/-- Witness for C7 at `createExistsEnvW`: the call still succeeds. -/
theorem doAPIVersionUpgrade_create_already_exists_witness :
    (doAPIVersionUpgrade createExistsEnvW).1 = none :=
  (doAPIVersionUpgrade_create_already_exists createExistsEnvW (by rfl) rfl).1
    { kind := ErrKind.alreadyExists, msg := "already exists" } rfl rfl

end Longhorn

namespace Longhorn

/-- C6: in every possible run of `doAPIVersionUpgrade`, every value it writes
to the VersionMarker (the fresh-install create and the post-conversion
update alike) is the current tag; consequently, applied to any starting
marker value, a run either leaves the marker unchanged or moves it to the
current tag — it never rewrites the marker to any other value. -/
theorem doAPIVersionUpgrade_marker_monotone (env : APIUpgradeEnv) (m : String) :
    ((markerWriteValues (doAPIVersionUpgrade env).2).all
        (fun v => v == CurrentCRDAPIVersion)) = true
    ∧ (applyMarkerWrites m (doAPIVersionUpgrade env).2 = m ∨
       applyMarkerWrites m (doAPIVersionUpgrade env).2 = CurrentCRDAPIVersion) := by
  unfold doAPIVersionUpgrade
  cases hget : readCRDAPIVersion env with
  | error e => simp [markerWriteValues, applyMarkerWrites]
  | ok v =>
    show ((markerWriteValues (resolveCRDAPIVersion v env).2).all
        (fun v => v == CurrentCRDAPIVersion)) = true
      ∧ (applyMarkerWrites m (resolveCRDAPIVersion v env).2 = m ∨
         applyMarkerWrites m (resolveCRDAPIVersion v env).2 = CurrentCRDAPIVersion)
    unfold resolveCRDAPIVersion
    split_ifs with hguard hcur hempty hlegacy
    · simp [markerWriteValues, applyMarkerWrites]
    · simp [markerWriteValues, applyMarkerWrites]
    · rcases env.canUpgrade with e | b
      · simp [markerWriteValues, applyMarkerWrites]
      · rcases b with _ | _
        · simp [markerWriteValues, applyMarkerWrites]
        · rcases env.createResult with _ | e
          · simp [markerWriteValues, applyMarkerWrites]
          · by_cases hk : e.kind = ErrKind.alreadyExists <;>
              simp [hk, markerWriteValues, applyMarkerWrites]
    · rcases env.convertResult with _ | e
      · rcases env.updateResult with _ | e
        · simp [markerWriteValues, applyMarkerWrites, CurrentCRDAPIVersion]
        · simp [markerWriteValues, applyMarkerWrites, CurrentCRDAPIVersion]
      · simp [markerWriteValues, applyMarkerWrites]
    · simp [markerWriteValues, applyMarkerWrites]

end Longhorn

namespace Longhorn

/-- The chain result is nil exactly when all five phase results are nil. -/
theorem upgradeChain_none_iff (env : UpgradeEnv) :
    (upgradeChain env).1 = none ↔
      (doAPIVersionUpgrade env.api).1 = none ∧ (doCRUpgrade env.cr).1 = none ∧
      doPodsUpgrade env.pods = none ∧
      doServicesUpgrade env.v110to111Services = none ∧
      doDeploymentAndDaemonSetUpgrade env.v110to111DeploymentAndDaemonSet = none := by
  simp only [upgradeChain, phaseResults]
  cases hA : (doAPIVersionUpgrade env.api).1 <;>
    cases hB : (doCRUpgrade env.cr).1 <;>
      cases hC : doPodsUpgrade env.pods <;>
        cases hD : doServicesUpgrade env.v110to111Services <;>
          cases hE : doDeploymentAndDaemonSetUpgrade env.v110to111DeploymentAndDaemonSet <;>
            simp [runSeq, hA, hB, hC, hD, hE]

/-- C1: the chain runs its phases in the fixed order API version, custom
resources, pods, services, workloads; within the CR phase the eight
per-version upgraders run in ascending declaration order; the first error of
any phase stops the chain (no later phase starts), and that error surfaces
wrapped with the failing phase's message. -/
theorem upgrade_chain_phase_order_fail_fast (env : UpgradeEnv) :
    ((upgradeChain env).2 <+:
      [Phase.apiVersion, Phase.customResources, Phase.pods, Phase.services,
       Phase.workloads])
    ∧ ((doCRUpgrade env.cr).2 <+:
      [CRStep.v070to080, CRStep.v100to101, CRStep.v102to110, CRStep.v110to111,
       CRStep.v110to120, CRStep.v111to120, CRStep.v120to121, CRStep.v122to123])
    ∧ ((upgradeChain env).1 = none ↔
        (doAPIVersionUpgrade env.api).1 = none ∧ (doCRUpgrade env.cr).1 = none ∧
        doPodsUpgrade env.pods = none ∧
        doServicesUpgrade env.v110to111Services = none ∧
        doDeploymentAndDaemonSetUpgrade env.v110to111DeploymentAndDaemonSet = none)
    ∧ (∀ e, (doAPIVersionUpgrade env.api).1 = some e →
        upgradeChain env = (some e, [Phase.apiVersion]))
    ∧ ((doAPIVersionUpgrade env.api).1 = none →
        ∀ e, (runSeq (crStepList env.cr)).1 = some e →
          upgradeChain env = (some (Wrap e "upgrade CRD failed"),
            [Phase.apiVersion, Phase.customResources]))
    ∧ ((doAPIVersionUpgrade env.api).1 = none → (doCRUpgrade env.cr).1 = none →
        ∀ e, firstSome [env.pods.v100to101InstanceManagerPods,
            env.pods.v102to110Pods, env.pods.v110to111Pods] = some e →
          upgradeChain env = (some (Wrap e "upgrade Pods failed"),
            [Phase.apiVersion, Phase.customResources, Phase.pods]))
    ∧ ((doAPIVersionUpgrade env.api).1 = none → (doCRUpgrade env.cr).1 = none →
        doPodsUpgrade env.pods = none →
        ∀ e, env.v110to111Services = some e →
          upgradeChain env = (some (Wrap e "doServicesUpgrade failed"),
            [Phase.apiVersion, Phase.customResources, Phase.pods, Phase.services]))
    ∧ ((doAPIVersionUpgrade env.api).1 = none → (doCRUpgrade env.cr).1 = none →
        doPodsUpgrade env.pods = none →
        doServicesUpgrade env.v110to111Services = none →
        ∀ e, env.v110to111DeploymentAndDaemonSet = some e →
          upgradeChain env = (some (Wrap e "doDeploymentAndDaemonSetUpgrade failed"),
            [Phase.apiVersion, Phase.customResources, Phase.pods, Phase.services,
             Phase.workloads])) := by
  refine ⟨?_, ?_, upgradeChain_none_iff env, ?_, ?_, ?_, ?_, ?_⟩
  · simpa [upgradeChain, phaseResults] using runSeq_trace_prefix (phaseResults env)
  · simpa [doCRUpgrade, crStepList] using runSeq_trace_prefix (crStepList env.cr)
  · intro e hA
    simp [upgradeChain, phaseResults, runSeq, hA]
  · intro hA e hcr
    have hB : (doCRUpgrade env.cr).1 = some (Wrap e "upgrade CRD failed") := by
      show wrapOpt (runSeq (crStepList env.cr)).1 "upgrade CRD failed" = _
      rw [hcr]
      rfl
    simp [upgradeChain, phaseResults, runSeq, hA, hB]
  · intro hA hB e hp
    have hC : doPodsUpgrade env.pods = some (Wrap e "upgrade Pods failed") := by
      show wrapOpt (firstSome [env.pods.v100to101InstanceManagerPods,
        env.pods.v102to110Pods, env.pods.v110to111Pods]) "upgrade Pods failed" = _
      rw [hp]
      rfl
    simp [upgradeChain, phaseResults, runSeq, hA, hB, hC]
  · intro hA hB hC e hs
    have hD : doServicesUpgrade env.v110to111Services =
        some (Wrap e "doServicesUpgrade failed") := by
      show wrapOpt env.v110to111Services "doServicesUpgrade failed" = _
      rw [hs]
      rfl
    simp [upgradeChain, phaseResults, runSeq, hA, hB, hC, hD]
  · intro hA hB hC hD e hw
    have hE : doDeploymentAndDaemonSetUpgrade env.v110to111DeploymentAndDaemonSet =
        some (Wrap e "doDeploymentAndDaemonSetUpgrade failed") := by
      show wrapOpt env.v110to111DeploymentAndDaemonSet
        "doDeploymentAndDaemonSetUpgrade failed" = _
      rw [hw]
      rfl
    simp [upgradeChain, phaseResults, runSeq, hA, hB, hC, hD, hE]

/-- A concrete tenure where the API phase succeeds (marker already current)
and the third CR upgrader fails. -/
def chainEnvW : UpgradeEnv :=
  { api := { getSetting := Except.ok CurrentCRDAPIVersion, canUpgrade := Except.ok true,
             createResult := none, convertResult := none, updateResult := none },
    cr := { v070to080 := none, v100to101 := none,
            v102to110 := some { kind := ErrKind.other, msg := "cr boom" },
            v110to111 := none, v110to120 := none, v111to120 := none,
            v120to121 := none, v122to123 := none },
    pods := { v100to101InstanceManagerPods := none, v102to110Pods := none,
              v110to111Pods := none },
    v110to111Services := none,
    v110to111DeploymentAndDaemonSet := none }

/-- Witness for C1 at `chainEnvW`: the failing CR step aborts the chain after
the CR phase, wrapped with the CR phase message. -/
theorem upgrade_chain_phase_order_fail_fast_witness :
    upgradeChain chainEnvW =
      (some (Wrap { kind := ErrKind.other, msg := "cr boom" } "upgrade CRD failed"),
       [Phase.apiVersion, Phase.customResources]) :=
  (upgrade_chain_phase_order_fail_fast chainEnvW).2.2.2.2.1 (by rfl)
    { kind := ErrKind.other, msg := "cr boom" } (by rfl)

end Longhorn

namespace Longhorn

/-- C9: the value `upgrade` returns to its caller is exactly the error the
`OnStartedLeading` callback assigned — the first error produced by version
resolution or any chain step, in chain order — and it is nil exactly when
every phase of the chain completed without error during the tenure. -/
theorem upgrade_returns_first_chain_error (env : UpgradeEnv) :
    upgrade env = (upgradeChain env).1
    ∧ upgrade env = firstSome [(doAPIVersionUpgrade env.api).1,
        (doCRUpgrade env.cr).1, doPodsUpgrade env.pods,
        doServicesUpgrade env.v110to111Services,
        doDeploymentAndDaemonSetUpgrade env.v110to111DeploymentAndDaemonSet]
    ∧ (upgrade env = none ↔
        (doAPIVersionUpgrade env.api).1 = none ∧ (doCRUpgrade env.cr).1 = none ∧
        doPodsUpgrade env.pods = none ∧
        doServicesUpgrade env.v110to111Services = none ∧
        doDeploymentAndDaemonSetUpgrade env.v110to111DeploymentAndDaemonSet = none) := by
  refine ⟨rfl, ?_, upgradeChain_none_iff env⟩
  have h := runSeq_result_eq_firstSome (phaseResults env)
  simpa [upgrade, upgradeChain, phaseResults] using h

/-- Witness for C9 at `chainEnvW`: the CR-phase error is the returned
value. -/
theorem upgrade_returns_first_chain_error_witness :
    upgrade chainEnvW =
      some (Wrap { kind := ErrKind.other, msg := "cr boom" } "upgrade CRD failed") :=
  ((upgrade_returns_first_chain_error chainEnvW).2.1).trans (by rfl)

/-- C10: with the bootstrap succeeding, the exported `Upgrade` runs the
local-node step (delegated to `v070to080.UpgradeLocalNode`) before any
leader-election attempt; if that step fails, `Upgrade` returns its error
wrapped with "upgrade local node failed" and the leader-election stage (and
hence every chain phase) never runs; if it succeeds, the election stage runs
after it and `Upgrade` returns the chain's result. -/
theorem Upgrade_local_node_precedes_election (env : TopEnv)
    (hc : env.buildConfig = none) (hk : env.newKubeClient = none)
    (hl : env.newLhClient = none) (hs : env.addToScheme = none) :
    (∀ e, env.v070to080UpgradeLocalNode = some e →
        Upgrade env = (some (Wrap e "upgrade local node failed"),
          [TopStep.localNodeUpgrade]))
    ∧ (env.v070to080UpgradeLocalNode = none →
        Upgrade env = (upgrade env.chain,
          [TopStep.localNodeUpgrade, TopStep.leaderElectionRun])) := by
  refine ⟨?_, ?_⟩
  · intro e hln
    simp [Upgrade, hc, hk, hl, hs, upgradeLocalNode, hln, wrapOpt]
  · intro hln
    simp [Upgrade, hc, hk, hl, hs, upgradeLocalNode, hln, wrapOpt]

/-- A concrete top-level environment whose local-node upgrade fails. -/
def topEnvW : TopEnv :=
  { buildConfig := none, newKubeClient := none, newLhClient := none,
    addToScheme := none,
    v070to080UpgradeLocalNode := some { kind := ErrKind.other, msg := "node boom" },
    chain := chainEnvW }

/-- Witness for C10 at `topEnvW`: the failed local-node step surfaces wrapped
and the election stage never runs. -/
theorem Upgrade_local_node_precedes_election_witness :
    Upgrade topEnvW =
      (some (Wrap { kind := ErrKind.other, msg := "node boom" }
        "upgrade local node failed"), [TopStep.localNodeUpgrade]) :=
  (Upgrade_local_node_precedes_election topEnvW rfl rfl rfl rfl).1
    { kind := ErrKind.other, msg := "node boom" } rfl

/-- C8: for the attacher and provisioner managed-object sets, `Deploy`
reconciles the service first and attempts the deployment only when the
service reconciliation returned nil, returning the first error with earlier
objects left in place (no cleanup call ever appears in a Deploy trace);
`Cleanup` always runs both the service and the deployment cleanup tasks,
joined before returning, and an individual failure is only logged — the
sibling cleanup still completes and the aggregate call has no error result
(its return type carries no error component). -/
theorem csi_deploy_fail_fast_cleanup_best_effort (env : csi.DeployEnv) :
    (∀ e, env.serviceDeploy = some e →
        csi.attacherDeploy env = (some e, [csi.CSIOp.deployService]) ∧
        csi.provisionerDeploy env = (some e, [csi.CSIOp.deployService]))
    ∧ (env.serviceDeploy = none →
        csi.attacherDeploy env =
          (env.deploymentDeploy, [csi.CSIOp.deployService, csi.CSIOp.deployDeployment]) ∧
        csi.provisionerDeploy env =
          (env.deploymentDeploy, [csi.CSIOp.deployService, csi.CSIOp.deployDeployment]))
    ∧ ((csi.attacherCleanup env).1 =
        [csi.CSIOp.cleanupService, csi.CSIOp.cleanupDeployment]
      ∧ (csi.provisionerCleanup env).1 =
        [csi.CSIOp.cleanupService, csi.CSIOp.cleanupDeployment])
    ∧ (∀ e, env.serviceCleanup = some e → env.deploymentCleanup = none →
        (csi.attacherCleanup env).2 =
          ["Failed to cleanup service in attacher deployment"] ∧
        (csi.provisionerCleanup env).2 =
          ["Failed to cleanup service in provisioner deployment"]) := by
  refine ⟨?_, ?_, ⟨rfl, rfl⟩, ?_⟩
  · intro e h
    exact ⟨by simp [csi.attacherDeploy, h], by simp [csi.provisionerDeploy, h]⟩
  · intro h
    exact ⟨by simp [csi.attacherDeploy, h], by simp [csi.provisionerDeploy, h]⟩
  · intro e hsc hdc
    exact ⟨by simp [csi.attacherCleanup, hsc, hdc],
      by simp [csi.provisionerCleanup, hsc, hdc]⟩

/-- A concrete CSI environment: service deploy succeeds, deployment deploy
fails, service cleanup fails, deployment cleanup succeeds. -/
def csiEnvW : csi.DeployEnv :=
  { serviceDeploy := none,
    deploymentDeploy := some { kind := ErrKind.other, msg := "deploy boom" },
    serviceCleanup := some { kind := ErrKind.other, msg := "cleanup boom" },
    deploymentCleanup := none }

/-- Witness for C8 at `csiEnvW`: the failing second deploy surfaces after the
service was reconciled, and a failing first cleanup only logs while the
second still runs. -/
theorem csi_deploy_fail_fast_cleanup_best_effort_witness :
    csi.attacherDeploy csiEnvW =
      (csiEnvW.deploymentDeploy, [csi.CSIOp.deployService, csi.CSIOp.deployDeployment])
    ∧ (csi.attacherCleanup csiEnvW).1 =
      [csi.CSIOp.cleanupService, csi.CSIOp.cleanupDeployment]
    ∧ (csi.attacherCleanup csiEnvW).2 =
      ["Failed to cleanup service in attacher deployment"] :=
  ⟨((csi_deploy_fail_fast_cleanup_best_effort csiEnvW).2.1 rfl).1,
   (csi_deploy_fail_fast_cleanup_best_effort csiEnvW).2.2.1.1,
   ((csi_deploy_fail_fast_cleanup_best_effort csiEnvW).2.2.2
     { kind := ErrKind.other, msg := "cleanup boom" } rfl rfl).1⟩

end Longhorn
